import Mathlib

/-!
Verification of the payments logic of the opencollective-api repository.

The definitions below are a shallow embedding of `server/lib/payments.js`
and of the legacy payment-method type mapping
(`server/graphql/v2/enum/PaymentMethodLegacyType`, provided as
`src/unnamed/part_003`).  Database rows are modelled as Lean structures,
the ledger as a `List Transaction` kept in ascending-id order (the
primary-key order used by `findAll({ order: ['id'] })`), JavaScript
`undefined`/`null` as `Option`, fractional fee percentages as `Rat`, and
cent amounts as `Int`.  Fallible code returns `Except String`.
-/

namespace OC

/-- Transaction type discriminator, the `type` column of the
`Transactions` table (`'CREDIT'` or `'DEBIT'`). -/
inductive TxnType where
  | CREDIT : TxnType
  | DEBIT : TxnType
deriving DecidableEq, Repr

/-- The JSONB `data` payload of a transaction, reduced to the parts the
payments code reads: the `isFeesOnTop` flag (an absent key is `none`)
and an opaque remainder standing for the payment-processor payload. -/
structure TxnData where
  isFeesOnTop : Option Bool
  extra : Option Nat
deriving DecidableEq, Repr

/-- A row of the `Transactions` table (a double-entry ledger row), with
the columns read or written by `server/lib/payments.js`. -/
structure Transaction where
  id : Nat
  type : TxnType
  TransactionGroup : Nat
  description : String
  amount : Int
  amountInHostCurrency : Int
  netAmountInCollectiveCurrency : Int
  currency : String
  hostCurrency : String
  hostCurrencyFxRate : Rat
  FromCollectiveId : Nat
  CollectiveId : Nat
  HostCollectiveId : Option Nat
  PaymentMethodId : Option Nat
  OrderId : Option Nat
  ExpenseId : Option Nat
  hostFeeInHostCurrency : Int
  platformFeeInHostCurrency : Int
  paymentProcessorFeeInHostCurrency : Int
  RefundTransactionId : Option Nat
  isRefund : Bool
  kind : Option String
  data : Option TxnData
deriving DecidableEq, Repr

/-- Modelled from the spec: `netAmount` is imported by
`server/lib/payments.js` from `server/lib/transactions.js`, which is not
under `src/`.  The spec describes a Transaction as "a ledger entry
(double-entry accounting row)"; the net amount of such a row in the
collective's currency is its recorded `netAmountInCollectiveCurrency`. -/
def netAmount (t : Transaction) : Int :=
  t.netAmountInCollectiveCurrency

/-- JavaScript `Math.round`: round to the nearest integer, halves toward
positive infinity, i.e. `⌊x + 1/2⌋`. -/
def mathRound (x : Rat) : Int :=
  Int.floor (x + 1 / 2)

/-- Embedding of `calcFee` (server/lib/payments.js lines 121-123):
`Math.round((amount * fee) / 100)`. -/
def calcFee (amount : Int) (fee : Rat) : Int :=
  mathRound ((amount * fee) / 100)

/-! Legacy payment-method type mapping (`src/unnamed/part_003`). -/

/-- The `PaymentMethodLegacyTypeEnum` enum of `src/unnamed/part_003`. -/
inductive PaymentMethodLegacyTypeEnum where
  | CREDIT_CARD : PaymentMethodLegacyTypeEnum
  | GIFT_CARD : PaymentMethodLegacyTypeEnum
  | PREPAID_BUDGET : PaymentMethodLegacyTypeEnum
  | ACCOUNT_BALANCE : PaymentMethodLegacyTypeEnum
  | PAYPAL : PaymentMethodLegacyTypeEnum
  | BRAINTREE_PAYPAL : PaymentMethodLegacyTypeEnum
  | BANK_TRANSFER : PaymentMethodLegacyTypeEnum
  | ADDED_FUNDS : PaymentMethodLegacyTypeEnum
deriving DecidableEq, Repr, Fintype

/-- The `PAYMENT_METHOD_SERVICE` constants referenced by
`src/unnamed/part_003` (string constants of
`server/constants/paymentMethods`). -/
inductive PMService where
  | STRIPE : PMService
  | OPENCOLLECTIVE : PMService
  | BRAINTREE : PMService
  | PAYPAL : PMService
deriving DecidableEq, Repr, Fintype

/-- The `PAYMENT_METHOD_TYPE` constants referenced by
`src/unnamed/part_003`. -/
inductive PMType where
  | CREDITCARD : PMType
  | GIFT_CARD : PMType
  | HOST : PMType
  | COLLECTIVE : PMType
  | PREPAID : PMType
  | PAYPAL : PMType
  | PAYMENT : PMType
  | MANUAL : PMType
deriving DecidableEq, Repr, Fintype

/-- The `ServiceTypePair` type of `src/unnamed/part_003`: a
`{ service, type }` pair. -/
structure ServiceTypePair where
  service : PMService
  type : PMType
deriving DecidableEq, Repr

/-- Embedding of `getLegacyPaymentMethodType` (`src/unnamed/part_003`
lines 28-50).  The fall-through case logs a warning and returns
`undefined`, modelled as `none`. -/
def getLegacyPaymentMethodType (pm : ServiceTypePair) : Option PaymentMethodLegacyTypeEnum :=
  if pm.service = PMService.STRIPE then
    if pm.type = PMType.CREDITCARD then some PaymentMethodLegacyTypeEnum.CREDIT_CARD
    else none
  else if pm.service = PMService.OPENCOLLECTIVE then
    if pm.type = PMType.GIFT_CARD then some PaymentMethodLegacyTypeEnum.GIFT_CARD
    else if pm.type = PMType.HOST then some PaymentMethodLegacyTypeEnum.ADDED_FUNDS
    else if pm.type = PMType.COLLECTIVE then some PaymentMethodLegacyTypeEnum.ACCOUNT_BALANCE
    else if pm.type = PMType.PREPAID then some PaymentMethodLegacyTypeEnum.PREPAID_BUDGET
    else none
  else if pm.service = PMService.BRAINTREE ∧ pm.type = PMType.PAYPAL then
    some PaymentMethodLegacyTypeEnum.BRAINTREE_PAYPAL
  else if pm.service = PMService.PAYPAL ∧ pm.type = PMType.PAYMENT then
    some PaymentMethodLegacyTypeEnum.PAYPAL
  else none

/-- Embedding of `getServiceTypeFromLegacyPaymentMethodType`
(`src/unnamed/part_003` lines 54-73). -/
def getServiceTypeFromLegacyPaymentMethodType
    (t : PaymentMethodLegacyTypeEnum) : ServiceTypePair :=
  match t with
  | PaymentMethodLegacyTypeEnum.CREDIT_CARD =>
    { service := PMService.STRIPE, type := PMType.CREDITCARD }
  | PaymentMethodLegacyTypeEnum.GIFT_CARD =>
    { service := PMService.OPENCOLLECTIVE, type := PMType.GIFT_CARD }
  | PaymentMethodLegacyTypeEnum.PREPAID_BUDGET =>
    { service := PMService.OPENCOLLECTIVE, type := PMType.PREPAID }
  | PaymentMethodLegacyTypeEnum.ACCOUNT_BALANCE =>
    { service := PMService.OPENCOLLECTIVE, type := PMType.COLLECTIVE }
  | PaymentMethodLegacyTypeEnum.ADDED_FUNDS =>
    { service := PMService.OPENCOLLECTIVE, type := PMType.HOST }
  | PaymentMethodLegacyTypeEnum.BANK_TRANSFER =>
    { service := PMService.OPENCOLLECTIVE, type := PMType.MANUAL }
  | PaymentMethodLegacyTypeEnum.PAYPAL =>
    { service := PMService.PAYPAL, type := PMType.PAYMENT }
  | PaymentMethodLegacyTypeEnum.BRAINTREE_PAYPAL =>
    { service := PMService.BRAINTREE, type := PMType.PAYPAL }

/-! Refund construction (`createRefundTransaction`,
server/lib/payments.js lines 125-224). -/

/-- The plain refund object assembled by `buildRefund` before it is
persisted: exactly the fields `pick`ed from the refunded transaction
plus the fields the function sets. -/
structure RefundEntry where
  currency : String
  FromCollectiveId : Nat
  CollectiveId : Nat
  HostCollectiveId : Option Nat
  PaymentMethodId : Option Nat
  OrderId : Option Nat
  ExpenseId : Option Nat
  hostCurrencyFxRate : Rat
  hostCurrency : String
  hostFeeInHostCurrency : Int
  platformFeeInHostCurrency : Int
  paymentProcessorFeeInHostCurrency : Int
  kind : Option String
  CreatedByUserId : Option Nat
  description : String
  data : TxnData
  amount : Int
  amountInHostCurrency : Int
  netAmountInCollectiveCurrency : Int
  isRefund : Bool
deriving DecidableEq, Repr

/-- JavaScript object spread `{ ...base, ...arg }` on the two `data`
keys the embedding tracks: a key present (`some`) in `arg` overwrites
the one in `base`. -/
def mergeData (base arg : TxnData) : TxnData :=
  { isFeesOnTop := arg.isFeesOnTop.orElse (fun _ => base.isFeesOnTop)
    extra := arg.extra.orElse (fun _ => base.extra) }

/-- Embedding of the `buildRefund` closure inside
`createRefundTransaction` (server/lib/payments.js lines 168-211).
`user` is the id of the user performing the refund, `dataArg` the
optional payment-method data merged into the refund's `data`. -/
def buildRefund (user : Option Nat) (refundedPaymentProcessorFee : Int)
    (dataArg : Option TxnData) (t : Transaction) : RefundEntry :=
  let pickedData : TxnData := { isFeesOnTop := t.data.bind TxnData.isFeesOnTop, extra := none }
  let hostFee : Int := -t.hostFeeInHostCurrency
  let platformFee : Int := -t.platformFeeInHostCurrency
  let processorFee : Int := -t.paymentProcessorFeeInHostCurrency
  let hostFee : Int := if refundedPaymentProcessorFee = 0 then hostFee + processorFee else hostFee
  let processorFee : Int := if refundedPaymentProcessorFee = 0 then 0 else processorFee
  { currency := t.currency
    FromCollectiveId := t.FromCollectiveId
    CollectiveId := t.CollectiveId
    HostCollectiveId := t.HostCollectiveId
    PaymentMethodId := t.PaymentMethodId
    OrderId := t.OrderId
    ExpenseId := t.ExpenseId
    hostCurrencyFxRate := t.hostCurrencyFxRate
    hostCurrency := t.hostCurrency
    hostFeeInHostCurrency := hostFee
    platformFeeInHostCurrency := platformFee
    paymentProcessorFeeInHostCurrency := processorFee
    kind := t.kind
    CreatedByUserId := user
    description := "Refund of \"" ++ t.description ++ "\""
    data := match dataArg with
      | some d => mergeData pickedData d
      | none => pickedData
    amount := -t.amount
    amountInHostCurrency := -t.amountInHostCurrency
    netAmountInCollectiveCurrency := -netAmount t
    isRefund := true }

/-- Lines 152-160 of `createRefundTransaction`: the transaction from the
collective's perspective.  A CREDIT is taken as is; for a DEBIT the
other transaction of the same `TransactionGroup` is looked up. -/
def findCreditTransaction (ledger : List Transaction) (transaction : Transaction) :
    Option Transaction :=
  if transaction.type = TxnType.CREDIT then some transaction
  else ledger.find? fun u =>
    u.TransactionGroup == transaction.TransactionGroup && u.id != transaction.id

/-- Truthiness of `transaction.data?.isFeesOnTop`. -/
def isFeesOnTopTxn (t : Transaction) : Bool :=
  (t.data.bind TxnData.isFeesOnTop).getD false

/-- Embedding of the entry-building part of `createRefundTransaction`
(server/lib/payments.js lines 149-224): select the CREDIT transaction,
check it was not already refunded, and build the refund double-entry
payload (plus, for fees-on-top contributions, the refund payload for
the platform-tip transaction `tip`, the result of
`transaction.getPlatformTipTransaction()`, whose implementation is not
under `src/`).  Persistence goes through
`models.Transaction.createDoubleEntry` and
`associateTransactionRefundId`; `createDoubleEntry` is not under `src/`
either, so `createRefundTransactionExec` below keeps it as a
parameter. -/
def createRefundTransaction (ledger : List Transaction) (transaction : Transaction)
    (refundedPaymentProcessorFee : Int) (dataArg : Option TxnData) (user : Option Nat)
    (tip : Option Transaction) : Except String (RefundEntry × Option RefundEntry) :=
  match findCreditTransaction ledger transaction with
  | none => Except.error "Cannot find any CREDIT transaction to refund"
  | some creditTransaction =>
    if creditTransaction.RefundTransactionId.isSome then
      Except.error "This transaction has already been refunded"
    else
      let creditTransactionRefund :=
        buildRefund user refundedPaymentProcessorFee dataArg creditTransaction
      let feeOnTopRefund :=
        if isFeesOnTopTxn transaction then
          tip.map (buildRefund user refundedPaymentProcessorFee dataArg)
        else none
      Except.ok (creditTransactionRefund, feeOnTopRefund)

/-- `createRefundTransaction` followed by persistence of the refund
entries it built.  `persist` stands for the writes performed by
`models.Transaction.createDoubleEntry` (not under `src/`) and
`associateTransactionRefundId`; when the checks fail the exception
propagates before any write, so the ledger is returned untouched. -/
def createRefundTransactionExec
    (persist : RefundEntry × Option RefundEntry → List Transaction → List Transaction)
    (ledger : List Transaction) (transaction : Transaction)
    (refundedPaymentProcessorFee : Int) (dataArg : Option TxnData) (user : Option Nat)
    (tip : Option Transaction) : Except String (List Transaction) :=
  (createRefundTransaction ledger transaction refundedPaymentProcessorFee dataArg user tip).map
    (fun es => persist es ledger)

/-! Cross-linking of refunded and refund transactions
(`associateTransactionRefundId`, server/lib/payments.js lines
226-253). -/

/-- The `where` clause of the `findAll` in
`associateTransactionRefundId`: rows of either transaction group. -/
def inRefundGroups (transaction refund : Transaction) (t : Transaction) : Bool :=
  t.TransactionGroup == transaction.TransactionGroup ||
    t.TransactionGroup == refund.TransactionGroup

/-- The `tr.data = data` assignment guarded by `if (data)`. -/
def applyData (dataArg : Option TxnData) (t : Transaction) : Transaction :=
  match dataArg with
  | some d => { t with data := some d }
  | none => t

/-- A sequelize `row.save()`: the ledger row with the same primary key
is replaced by the updated row. -/
def saveRow (ledger : List Transaction) (row : Transaction) : List Transaction :=
  ledger.map fun u => if u.id = row.id then row else u

/-- Row lookup by primary key. -/
def findById (ledger : List Transaction) (i : Nat) : Option Transaction :=
  ledger.find? fun u => u.id = i

/-- Embedding of `associateTransactionRefundId` (server/lib/payments.js
lines 226-253).  The ledger list is kept in ascending id order, so
filtering it models `findAll({ order: ['id'] })`; the destructuring
`[tr1, tr2, tr3, tr4]` takes the first four rows and ignores any
others, and throws (`none` here) when fewer than four exist.  The
second component of the result is the value of
`find([tr1, tr2, tr3, tr4], { id: transaction.id })`, which is
`undefined` (`none`) when no id matches. -/
def associateTransactionRefundId (ledger : List Transaction)
    (transaction refund : Transaction) (dataArg : Option TxnData) :
    Option (List Transaction × Option Transaction) :=
  match ledger.filter (inRefundGroups transaction refund) with
  | t1 :: t2 :: t3 :: t4 :: _ =>
    let tr1 := { applyData dataArg t1 with RefundTransactionId := some t4.id }
    let l1 := saveRow ledger tr1
    let tr2 := { applyData dataArg t2 with RefundTransactionId := some t3.id }
    let l2 := saveRow l1 tr2
    let tr3 := { t3 with RefundTransactionId := some t2.id }
    let l3 := saveRow l2 tr3
    let tr4 := { t4 with RefundTransactionId := some t1.id }
    let l4 := saveRow l3 tr4
    some (l4, [tr1, tr2, tr3, tr4].find? fun u => u.id = transaction.id)
  | _ => none

/-- Number of ledger rows whose stored value differs between two ledger
states of equal shape (the rows are compared positionally). -/
def changedRecords (old new : List Transaction) : Nat :=
  (old.zip new).countP fun p => !(p.1 == p.2)

/-! Orders, payment methods and the fee-percentage waterfalls
(server/lib/payments.js lines 294-395 and 570-682). -/

/-- The `{ service, type }` fields of an order's payment method as read
by `server/lib/payments.js` (plain strings there; `type` may be
null). -/
structure OrderPaymentMethod where
  service : String
  type : Option String
deriving DecidableEq, Repr

/-- The `data` JSONB of a Collective, reduced to the fee overrides the
waterfalls read (an absent key is `none`). -/
structure CollectiveData where
  bankTransfersPlatformFeePercent : Option Rat
  bankTransfersHostFeePercent : Option Rat
  creditCardHostFeePercent : Option Rat
  paypalHostFeePercent : Option Rat
deriving DecidableEq, Repr

/-- A Collective row, with the columns the fee waterfalls read. -/
structure Collective where
  isHostAccount : Bool
  platformFeePercent : Option Rat
  hostFeePercent : Option Rat
  data : Option CollectiveData
deriving DecidableEq, Repr

/-- The `data` JSONB of an Order, reduced to the keys
`server/lib/payments.js` reads. -/
structure OrderData where
  platformFeePercent : Option Rat
  hostFeePercent : Option Rat
  platformFee : Option Int
  isFeesOnTop : Option Bool
deriving DecidableEq, Repr

/-- An Order row, with the fields `executeOrder` and the fee waterfalls
read.  `collective` is the populated `order.collective` association and
`processedAt` an opaque timestamp. -/
structure Order where
  id : Nat
  totalAmount : Option Int
  interval : Option String
  currency : String
  processedAt : Option Nat
  data : Option OrderData
  paymentMethod : OrderPaymentMethod
  collective : Collective
deriving DecidableEq, Repr

/-- The `config.fees.default` platform configuration read as fallback
by both waterfalls. -/
structure FeesConfig where
  platformPercent : Option Rat
  hostPercent : Option Rat
deriving DecidableEq, Repr

/-- Lodash `find(possibleValues, isNumber)` over a list of
number-or-undefined values: the first value that is a number. -/
def findNumber : List (Option Rat) → Option Rat
  | [] => none
  | some v :: _ => some v
  | none :: rest => findNumber rest

/-- Embedding of `getPlatformFeePercent` (server/lib/payments.js lines
591-623).  `host` is the resolved host collective
(`order.collective.getHostCollective()` when the caller passes none). -/
def getPlatformFeePercent (cfg : FeesConfig) (order : Order) (host : Collective) :
    Option Rat :=
  let possibleValues : List (Option Rat) := [order.data.bind OrderData.platformFeePercent]
  let possibleValues := possibleValues ++
    (if order.paymentMethod.service = "opencollective" ∧
        order.paymentMethod.type = some "manual" then
      [order.collective.data.bind CollectiveData.bankTransfersPlatformFeePercent,
       host.data.bind CollectiveData.bankTransfersPlatformFeePercent,
       some 0]
    else [])
  let possibleValues := possibleValues ++
    (if order.paymentMethod.service = "opencollective" ∧
        (order.paymentMethod.type = some "collective" ∨
          order.paymentMethod.type = some "host") then
      [some (0 : Rat)]
    else [])
  let possibleValues := possibleValues ++
    [order.collective.platformFeePercent, cfg.platformPercent]
  findNumber possibleValues

/-- Restatement of claim C6's waterfall in the spec's words, to be
compared with the embedding `getPlatformFeePercent`: first the
percentage fixed on the order's data; then, only for
opencollective/manual payment methods, the collective's bank-transfer
override, the host's bank-transfer override, and 0; then 0 for
opencollective collective/host payment methods; then the collective's
`platformFeePercent`; finally the configured platform default. -/
def getPlatformFeePercentSpec (cfg : FeesConfig) (order : Order) (host : Collective) :
    Option Rat :=
  match order.data.bind OrderData.platformFeePercent with
  | some v => some v
  | none =>
    if order.paymentMethod.service = "opencollective" ∧
        order.paymentMethod.type = some "manual" then
      match order.collective.data.bind CollectiveData.bankTransfersPlatformFeePercent with
      | some v => some v
      | none =>
        match host.data.bind CollectiveData.bankTransfersPlatformFeePercent with
        | some v => some v
        | none => some 0
    else if order.paymentMethod.service = "opencollective" ∧
        (order.paymentMethod.type = some "collective" ∨
          order.paymentMethod.type = some "host") then
      some 0
    else
      match order.collective.platformFeePercent with
      | some v => some v
      | none => cfg.platformPercent

/-- Embedding of `getHostFeePercent` (server/lib/payments.js lines
633-682). -/
def getHostFeePercent (cfg : FeesConfig) (order : Order) (host : Collective) :
    Option Rat :=
  if order.collective.isHostAccount then some 0
  else
    let possibleValues : List (Option Rat) := [order.data.bind OrderData.hostFeePercent]
    let possibleValues := possibleValues ++
      (if order.paymentMethod.service = "opencollective" ∧
          order.paymentMethod.type = some "manual" then
        [order.collective.data.bind CollectiveData.bankTransfersHostFeePercent,
         host.data.bind CollectiveData.bankTransfersHostFeePercent]
      else [])
    let possibleValues := possibleValues ++
      (if order.paymentMethod.service = "opencollective" ∧
          (order.paymentMethod.type = some "collective" ∨
            order.paymentMethod.type = some "host") then
        [some (0 : Rat)]
      else [])
    let possibleValues := possibleValues ++
      (if order.paymentMethod.service = "stripe" then
        [order.collective.data.bind CollectiveData.creditCardHostFeePercent,
         host.data.bind CollectiveData.creditCardHostFeePercent]
      else [])
    let possibleValues := possibleValues ++
      (if order.paymentMethod.service = "paypal" then
        [order.collective.data.bind CollectiveData.paypalHostFeePercent,
         host.data.bind CollectiveData.paypalHostFeePercent]
      else [])
    let possibleValues := possibleValues ++
      [order.collective.hostFeePercent, cfg.hostPercent]
    findNumber possibleValues

/-! `executeOrder` validation (server/lib/payments.js lines 294-395). -/

/-- JavaScript truthiness of an optional string (`undefined`, `null`
and the empty string are falsy). -/
def jsTruthyStr (s : Option String) : Bool :=
  match s with
  | none => false
  | some v => !(v = "")

/-- JavaScript truthiness of an optional integer (`undefined`, `null`
and `0` are falsy). -/
def jsTruthyInt (n : Option Int) : Bool :=
  match n with
  | none => false
  | some v => !(v = 0)

/-- The `payment` object assembled by `executeOrder`. -/
structure Payment where
  amount : Option Int
  interval : Option String
  currency : String
deriving DecidableEq, Repr

/-- Embedding of `validatePayment` (server/lib/payments.js lines
387-395): `payment.interval && !includes(['month','year'], interval)`
throws, then `!payment.amount` throws. -/
def validatePayment (payment : Payment) : Except String Unit :=
  if jsTruthyStr payment.interval &&
      !(payment.interval == some "month" || payment.interval == some "year") then
    Except.error "Interval should be null, month or year."
  else if !jsTruthyInt payment.amount then
    Except.error "payment.amount missing"
  else
    Except.ok ()

/-- Embedding of the validation prefix of `executeOrder`
(server/lib/payments.js lines 300-330): reject orders already
processed, then run `validatePayment` on the assembled payment.  The
remainder of the function (populate, plan validation, charging through
`processOrder`, status update, emails, subscription creation) only runs
after these checks and is abstracted as the continuation `rest`; the
model-instance checks on `user` and `order` are vacuous here because
the arguments are typed. -/
def executeOrder (rest : Order → Except String Unit) (order : Order) :
    Except String Unit :=
  if order.processedAt.isSome then
    Except.error ("This order (#" ++ toString order.id ++
      ") has already been processed at " ++ toString (order.processedAt.getD 0))
  else
    match validatePayment
        { amount := order.totalAmount, interval := order.interval,
          currency := order.currency } with
    | Except.error e => Except.error e
    | Except.ok _ => rest order

/-- Whether an `Except` result is a rejection. -/
def isErr {α : Type} (r : Except String α) : Bool :=
  match r with
  | Except.error _ => true
  | Except.ok _ => false

/-! Concrete ledger rows and orders used to evaluate the definitions on
explicit inputs. -/

/-- A concrete CREDIT ledger row: a 5000-cent contribution carrying a
-50 host fee and a -100 payment-processor fee. -/
def baseTxn : Transaction :=
  { id := 2
    type := TxnType.CREDIT
    TransactionGroup := 10
    description := "contribution"
    amount := 5000
    amountInHostCurrency := 5000
    netAmountInCollectiveCurrency := 4850
    currency := "USD"
    hostCurrency := "USD"
    hostCurrencyFxRate := 1
    FromCollectiveId := 100
    CollectiveId := 200
    HostCollectiveId := some 300
    PaymentMethodId := some 400
    OrderId := some 500
    ExpenseId := none
    hostFeeInHostCurrency := -50
    platformFeeInHostCurrency := 0
    paymentProcessorFeeInHostCurrency := -100
    RefundTransactionId := none
    isRefund := false
    kind := some "CONTRIBUTION"
    data := none }

/-- A CREDIT row that already carries a `RefundTransactionId`. -/
def refundedTxn : Transaction :=
  { baseTxn with RefundTransactionId := some 99 }

/-- A DEBIT row whose transaction group holds no other row. -/
def loneDebit : Transaction :=
  { baseTxn with id := 7, type := TxnType.DEBIT, TransactionGroup := 77 }

/-- The DEBIT side of `baseTxn`'s double entry (group 10, id 1). -/
def cexDebit1 : Transaction :=
  { baseTxn with id := 1, type := TxnType.DEBIT }

/-- The CREDIT side of the refund double entry (group 20, id 3). -/
def cexRefund3 : Transaction :=
  { baseTxn with id := 3, TransactionGroup := 20, isRefund := true }

/-- The DEBIT side of the refund double entry (group 20, id 4). -/
def cexRefund4 : Transaction :=
  { baseTxn with id := 4, type := TxnType.DEBIT, TransactionGroup := 20, isRefund := true }

/-- A four-row ledger holding `baseTxn`'s double entry (group 10) and
its refund double entry (group 20), in ascending id order. -/
def cexLedger : List Transaction :=
  [cexDebit1, baseTxn, cexRefund3, cexRefund4]

/-- A concrete unprocessed order paid by stripe credit card. -/
def orderBase : Order :=
  { id := 7
    totalAmount := some 1000
    interval := none
    currency := "USD"
    processedAt := none
    data := none
    paymentMethod := { service := "stripe", type := some "creditcard" }
    collective :=
      { isHostAccount := false
        platformFeePercent := some 5
        hostFeePercent := some 5
        data := none } }

/-- `orderBase` with the empty string as interval. -/
def orderEmptyInterval : Order :=
  { orderBase with interval := some "" }

/-- `orderBase` already processed. -/
def orderProcessed : Order :=
  { orderBase with processedAt := some 123 }

/-- `orderBase` targeting a collective that is itself a host account. -/
def orderToHostAccount : Order :=
  { orderBase with collective :=
      { isHostAccount := true
        platformFeePercent := some 5
        hostFeePercent := some 10
        data := none } }

/-- A concrete host collective with no fee overrides. -/
def hostBase : Collective :=
  { isHostAccount := true, platformFeePercent := none, hostFeePercent := some 10, data := none }

/-! Theorems. -/

/-- C9: for every integer amount and fee percentage, `calcFee` returns
`amount * fee / 100` rounded to the nearest integer with halves toward
positive infinity (the result is within `[x - 1/2, x + 1/2)` of the
exact value `x`), and in particular `calcFee 100 3.5 = 4`. -/
theorem calcFee_rounds_to_nearest :
    (∀ (amount : Int) (fee : Rat),
      ((calcFee amount fee : Int) : Rat) - 1 / 2 ≤ (amount : Rat) * fee / 100 ∧
        (amount : Rat) * fee / 100 < ((calcFee amount fee : Int) : Rat) + 1 / 2) ∧
    calcFee 100 (7 / 2) = 4 := by
  constructor
  · intro amount fee
    have h1 : ((Int.floor ((amount : Rat) * fee / 100 + 1 / 2) : Int) : Rat) ≤
        (amount : Rat) * fee / 100 + 1 / 2 := Int.floor_le _
    have h2 : (amount : Rat) * fee / 100 + 1 / 2 <
        ((Int.floor ((amount : Rat) * fee / 100 + 1 / 2) : Int) : Rat) + 1 :=
      Int.lt_floor_add_one _
    constructor
    · simp only [calcFee, mathRound]
      linarith
    · simp only [calcFee, mathRound]
      linarith
  · show mathRound ((100 * (7 / 2) : Rat) / 100) = 4
    have h : ((100 * (7 / 2) : Rat) / 100) + 1 / 2 = 4 := by norm_num
    simp only [mathRound, h]
    exact Int.floor_intCast 4

/-- C10: mapping a legacy payment-method type to its `(service, type)`
pair and back is the identity for every legacy type except
`BANK_TRANSFER`; `BANK_TRANSFER` maps to `(OPENCOLLECTIVE, MANUAL)`,
on which `getLegacyPaymentMethodType` returns no value. -/
theorem legacyPaymentMethodType_roundtrip :
    (∀ t : PaymentMethodLegacyTypeEnum, t ≠ PaymentMethodLegacyTypeEnum.BANK_TRANSFER →
      getLegacyPaymentMethodType (getServiceTypeFromLegacyPaymentMethodType t) = some t) ∧
    getServiceTypeFromLegacyPaymentMethodType PaymentMethodLegacyTypeEnum.BANK_TRANSFER =
      { service := PMService.OPENCOLLECTIVE, type := PMType.MANUAL } ∧
    getLegacyPaymentMethodType
      { service := PMService.OPENCOLLECTIVE, type := PMType.MANUAL } = none := by
  refine ⟨?_, rfl, rfl⟩
  decide

/-- Witness for C10: the round trip evaluated at `CREDIT_CARD`. -/
theorem legacyPaymentMethodType_roundtrip_witness :
    getLegacyPaymentMethodType (getServiceTypeFromLegacyPaymentMethodType
      PaymentMethodLegacyTypeEnum.CREDIT_CARD) =
      some PaymentMethodLegacyTypeEnum.CREDIT_CARD :=
  legacyPaymentMethodType_roundtrip.1 PaymentMethodLegacyTypeEnum.CREDIT_CARD (by decide)

/-- C7: when the order's collective is itself a host account,
`getHostFeePercent` returns 0 whatever the payment method, the
configured percentages and the platform defaults are. -/
theorem getHostFeePercent_zero_for_host_account (cfg : FeesConfig) (order : Order)
    (host : Collective) (h : order.collective.isHostAccount = true) :
    getHostFeePercent cfg order host = some 0 := by
  unfold getHostFeePercent
  simp [h]

/-- Witness for C7: a concrete order whose collective is a host
account. -/
theorem getHostFeePercent_zero_for_host_account_witness :
    getHostFeePercent { platformPercent := some 5, hostPercent := some 10 }
      orderToHostAccount hostBase = some 0 :=
  getHostFeePercent_zero_for_host_account _ orderToHostAccount hostBase rfl

/-- C2: when `refundedPaymentProcessorFee` is 0, the refund entry built
by `buildRefund` has a zero payment-processor fee and absorbs the
unrefunded processor fee into the host fee
(`-(hostFee + paymentProcessorFee)`), leaving the refunded net amount
(`-netAmount t`) untouched; when it is nonzero the three fees are
simply the sign-flipped originals. -/
theorem buildRefund_processor_fee_cases (user : Option Nat) (dataArg : Option TxnData)
    (t : Transaction) (rppf : Int) :
    (rppf = 0 →
      (buildRefund user rppf dataArg t).paymentProcessorFeeInHostCurrency = 0 ∧
      (buildRefund user rppf dataArg t).hostFeeInHostCurrency =
        -(t.hostFeeInHostCurrency + t.paymentProcessorFeeInHostCurrency) ∧
      (buildRefund user rppf dataArg t).netAmountInCollectiveCurrency = -netAmount t) ∧
    (rppf ≠ 0 →
      (buildRefund user rppf dataArg t).hostFeeInHostCurrency = -t.hostFeeInHostCurrency ∧
      (buildRefund user rppf dataArg t).platformFeeInHostCurrency =
        -t.platformFeeInHostCurrency ∧
      (buildRefund user rppf dataArg t).paymentProcessorFeeInHostCurrency =
        -t.paymentProcessorFeeInHostCurrency) := by
  constructor
  · intro h
    subst h
    refine ⟨rfl, ?_, rfl⟩
    simp only [buildRefund]
    simp
    ring
  · intro h
    simp [buildRefund, h]

/-- Witness for C2: both fee cases of `buildRefund` evaluated on a
concrete transaction with -50 host fee and -100 processor fee. -/
theorem buildRefund_processor_fee_cases_witness :
    ((buildRefund none 0 none baseTxn).paymentProcessorFeeInHostCurrency = 0 ∧
      (buildRefund none 0 none baseTxn).hostFeeInHostCurrency =
        -(baseTxn.hostFeeInHostCurrency + baseTxn.paymentProcessorFeeInHostCurrency)) ∧
    (buildRefund none 2 none baseTxn).paymentProcessorFeeInHostCurrency =
      -baseTxn.paymentProcessorFeeInHostCurrency :=
  ⟨⟨((buildRefund_processor_fee_cases none none baseTxn 0).1 rfl).1,
    ((buildRefund_processor_fee_cases none none baseTxn 0).1 rfl).2.1⟩,
    ((buildRefund_processor_fee_cases none none baseTxn 2).2 (by decide)).2.2⟩

/-- C1 counterexample: when `createRefundTransaction` is called with
`refundedPaymentProcessorFee = 0` on a CREDIT transaction carrying a
-100 processor fee, the refund entry's processor fee is 0, not the
sign-flipped original 100 the claim asserts. -/
theorem createRefundTransaction_flipped_fees_cex :
    Except.map (fun p => p.1.paymentProcessorFeeInHostCurrency)
        (createRefundTransaction [] baseTxn 0 none none none) = Except.ok 0 ∧
    -baseTxn.paymentProcessorFeeInHostCurrency = 100 ∧ (0 : Int) ≠ 100 := by
  refine ⟨rfl, rfl, by decide⟩

/-- C1 (amended): whenever the selected CREDIT transaction has no
`RefundTransactionId`, `createRefundTransaction` builds a refund entry
whose amount, host amount and net amount are the exact negations of
the CREDIT transaction's, whose `isRefund` flag is set, and which
keeps the currencies, collective ids, host, payment method,
order/expense ids and kind; its three fees are the sign-flipped
originals provided `refundedPaymentProcessorFee` is nonzero, and when
it is zero the unrefunded processor fee is absorbed into the host fee
instead. -/
theorem createRefundTransaction_reverses_credit (ledger : List Transaction)
    (transaction ct : Transaction) (rppf : Int) (dataArg : Option TxnData)
    (user : Option Nat) (tip : Option Transaction)
    (hcredit : findCreditTransaction ledger transaction = some ct)
    (hnoref : ct.RefundTransactionId = none) :
    createRefundTransaction ledger transaction rppf dataArg user tip =
      Except.ok (buildRefund user rppf dataArg ct,
        if isFeesOnTopTxn transaction then tip.map (buildRefund user rppf dataArg)
        else none) ∧
    (buildRefund user rppf dataArg ct).amount = -ct.amount ∧
    (buildRefund user rppf dataArg ct).amountInHostCurrency = -ct.amountInHostCurrency ∧
    (buildRefund user rppf dataArg ct).netAmountInCollectiveCurrency =
      -ct.netAmountInCollectiveCurrency ∧
    (buildRefund user rppf dataArg ct).isRefund = true ∧
    (buildRefund user rppf dataArg ct).currency = ct.currency ∧
    (buildRefund user rppf dataArg ct).hostCurrency = ct.hostCurrency ∧
    (buildRefund user rppf dataArg ct).hostCurrencyFxRate = ct.hostCurrencyFxRate ∧
    (buildRefund user rppf dataArg ct).FromCollectiveId = ct.FromCollectiveId ∧
    (buildRefund user rppf dataArg ct).CollectiveId = ct.CollectiveId ∧
    (buildRefund user rppf dataArg ct).HostCollectiveId = ct.HostCollectiveId ∧
    (buildRefund user rppf dataArg ct).PaymentMethodId = ct.PaymentMethodId ∧
    (buildRefund user rppf dataArg ct).OrderId = ct.OrderId ∧
    (buildRefund user rppf dataArg ct).ExpenseId = ct.ExpenseId ∧
    (buildRefund user rppf dataArg ct).kind = ct.kind ∧
    (rppf ≠ 0 →
      (buildRefund user rppf dataArg ct).hostFeeInHostCurrency =
        -ct.hostFeeInHostCurrency ∧
      (buildRefund user rppf dataArg ct).platformFeeInHostCurrency =
        -ct.platformFeeInHostCurrency ∧
      (buildRefund user rppf dataArg ct).paymentProcessorFeeInHostCurrency =
        -ct.paymentProcessorFeeInHostCurrency) ∧
    (rppf = 0 →
      (buildRefund user rppf dataArg ct).paymentProcessorFeeInHostCurrency = 0 ∧
      (buildRefund user rppf dataArg ct).hostFeeInHostCurrency =
        -(ct.hostFeeInHostCurrency + ct.paymentProcessorFeeInHostCurrency) ∧
      (buildRefund user rppf dataArg ct).platformFeeInHostCurrency =
        -ct.platformFeeInHostCurrency) := by
  refine ⟨?_, ?_, ?_, ?_, ?_, ?_, ?_, ?_, ?_, ?_, ?_, ?_, ?_, ?_, ?_, ?_, ?_⟩
  · simp only [createRefundTransaction, hcredit, hnoref, Option.isSome_none, Bool.false_eq_true,
      if_false]
  · simp [buildRefund]
  · simp [buildRefund]
  · simp [buildRefund, netAmount]
  · simp [buildRefund]
  · simp [buildRefund]
  · simp [buildRefund]
  · simp [buildRefund]
  · simp [buildRefund]
  · simp [buildRefund]
  · simp [buildRefund]
  · simp [buildRefund]
  · simp [buildRefund]
  · simp [buildRefund]
  · simp [buildRefund]
  · intro h
    simp [buildRefund, h]
  · intro h
    subst h
    refine ⟨rfl, ?_, rfl⟩
    simp only [buildRefund]
    simp
    ring

/-- Witness for C1 (amended): the refund of a concrete CREDIT
transaction, with both a nonzero (2) and a zero
`refundedPaymentProcessorFee`. -/
theorem createRefundTransaction_reverses_credit_witness :
    (buildRefund (some 9) 2 none baseTxn).amount = -baseTxn.amount ∧
    (buildRefund (some 9) 2 none baseTxn).paymentProcessorFeeInHostCurrency =
      -baseTxn.paymentProcessorFeeInHostCurrency ∧
    (buildRefund (some 9) 0 none baseTxn).paymentProcessorFeeInHostCurrency = 0 :=
  ⟨(createRefundTransaction_reverses_credit [] baseTxn baseTxn 2 none (some 9) none
      rfl rfl).2.1,
    ((createRefundTransaction_reverses_credit [] baseTxn baseTxn 2 none (some 9) none
      rfl rfl).2.2.2.2.2.2.2.2.2.2.2.2.2.2.2.1 (by decide)).2.2,
    ((createRefundTransaction_reverses_credit [] baseTxn baseTxn 0 none (some 9) none
      rfl rfl).2.2.2.2.2.2.2.2.2.2.2.2.2.2.2.2 rfl).1⟩

/-- C3: `createRefundTransaction` fails with "This transaction has
already been refunded" when the group's CREDIT transaction — the input
itself for a CREDIT, the looked-up group sibling for a DEBIT — already
carries a `RefundTransactionId`, and with "Cannot find any CREDIT
transaction to refund" when called on a non-CREDIT transaction whose
group holds no other row; in either case the error propagates before
any persistence, so no refund row is created and the ledger is
untouched. -/
theorem createRefundTransaction_error_cases (ledger : List Transaction)
    (transaction : Transaction) (rppf : Int) (dataArg : Option TxnData)
    (user : Option Nat) (tip : Option Transaction) :
    (∀ ct : Transaction, findCreditTransaction ledger transaction = some ct →
      ct.RefundTransactionId.isSome = true →
      createRefundTransaction ledger transaction rppf dataArg user tip =
        Except.error "This transaction has already been refunded") ∧
    (transaction.type ≠ TxnType.CREDIT →
      (∀ u ∈ ledger,
        ¬(u.TransactionGroup = transaction.TransactionGroup ∧ u.id ≠ transaction.id)) →
      createRefundTransaction ledger transaction rppf dataArg user tip =
        Except.error "Cannot find any CREDIT transaction to refund") ∧
    (∀ (persist : RefundEntry × Option RefundEntry → List Transaction → List Transaction)
        (e : String),
      createRefundTransaction ledger transaction rppf dataArg user tip = Except.error e →
      createRefundTransactionExec persist ledger transaction rppf dataArg user tip =
        Except.error e) := by
  refine ⟨?_, ?_, ?_⟩
  · intro ct hce hr
    simp [createRefundTransaction, hce, hr]
  · intro ht hnone
    have hfind : (ledger.find? fun u =>
        u.TransactionGroup == transaction.TransactionGroup && u.id != transaction.id) = none := by
      rw [List.find?_eq_none]
      intro u hu
      have := hnone u hu
      simp only [Bool.and_eq_true, beq_iff_eq, bne_iff_ne, ne_eq] at *
      tauto
    simp [createRefundTransaction, findCreditTransaction, ht, hfind]
  · intro persist e he
    simp [createRefundTransactionExec, he, Except.map]

/-- Witness for C3: the already-refunded error on both a CREDIT input
and a DEBIT input whose group's CREDIT carries a `RefundTransactionId`,
the missing-CREDIT error on a DEBIT alone in its group, and the
untouched-ledger consequence. -/
theorem createRefundTransaction_error_cases_witness :
    createRefundTransaction [refundedTxn] refundedTxn 0 none none none =
      Except.error "This transaction has already been refunded" ∧
    createRefundTransaction [cexDebit1, refundedTxn] cexDebit1 0 none none none =
      Except.error "This transaction has already been refunded" ∧
    createRefundTransaction [loneDebit] loneDebit 0 none none none =
      Except.error "Cannot find any CREDIT transaction to refund" ∧
    createRefundTransactionExec (fun _ l => l) [refundedTxn] refundedTxn 0 none none none =
      Except.error "This transaction has already been refunded" := by
  have h1 := (createRefundTransaction_error_cases [refundedTxn] refundedTxn 0 none none none).1
    refundedTxn rfl rfl
  have h1d := (createRefundTransaction_error_cases [cexDebit1, refundedTxn] cexDebit1
    0 none none none).1 refundedTxn (by decide) rfl
  have h2 := (createRefundTransaction_error_cases [loneDebit] loneDebit 0 none none none).2.1
    (by decide) (by decide)
  have h3 := (createRefundTransaction_error_cases [refundedTxn] refundedTxn 0 none none none).2.2
    (fun _ l => l) _ h1
  exact ⟨h1, h1d, h2, h3⟩

/-- C6: `getPlatformFeePercent` returns the first set value in exactly
the claimed precedence — the order-data override; then, only for
opencollective/manual, the collective bank-transfer override, the host
bank-transfer override and 0; then 0 for opencollective
collective/host payment methods; then the collective's
`platformFeePercent`; finally the configured platform default — as
captured by the spec-side restatement `getPlatformFeePercentSpec`. -/
theorem getPlatformFeePercent_eq_spec (cfg : FeesConfig) (order : Order)
    (host : Collective) :
    getPlatformFeePercent cfg order host = getPlatformFeePercentSpec cfg order host := by
  unfold getPlatformFeePercent getPlatformFeePercentSpec
  by_cases hmanual : order.paymentMethod.service = "opencollective" ∧
      order.paymentMethod.type = some "manual"
  · have hnotch : ¬(order.paymentMethod.service = "opencollective" ∧
        (order.paymentMethod.type = some "collective" ∨
          order.paymentMethod.type = some "host")) := by
      rintro ⟨-, h | h⟩ <;> rw [hmanual.2] at h <;> simp at h
    simp only [if_pos hmanual, if_neg hnotch, List.append_nil, List.nil_append]
    cases order.data.bind OrderData.platformFeePercent <;>
      cases order.collective.data.bind CollectiveData.bankTransfersPlatformFeePercent <;>
        cases host.data.bind CollectiveData.bankTransfersPlatformFeePercent <;>
          simp [findNumber]
  · by_cases hch : order.paymentMethod.service = "opencollective" ∧
        (order.paymentMethod.type = some "collective" ∨
          order.paymentMethod.type = some "host")
    · simp only [if_neg hmanual, if_pos hch, List.append_nil, List.nil_append]
      cases order.data.bind OrderData.platformFeePercent <;> simp [findNumber]
    · simp only [if_neg hmanual, if_neg hch, List.append_nil, List.nil_append]
      cases order.data.bind OrderData.platformFeePercent <;>
        cases horder : order.collective.platformFeePercent <;>
          cases hcfg : cfg.platformPercent <;>
            simp [findNumber, horder, hcfg]

/-- C8 counterexample: an order whose interval is the empty string — a
value that is neither null, 'month' nor 'year' — is not rejected:
`executeOrder` proceeds to the rest of the processing, because the
interval guard of `validatePayment` only fires on truthy strings. -/
theorem executeOrder_empty_interval_cex :
    executeOrder (fun _ => Except.ok ()) orderEmptyInterval = Except.ok () ∧
    orderEmptyInterval.interval ≠ none ∧
    orderEmptyInterval.interval ≠ some "month" ∧
    orderEmptyInterval.interval ≠ some "year" ∧
    orderEmptyInterval.processedAt = none ∧
    jsTruthyInt orderEmptyInterval.totalAmount = true := by
  refine ⟨rfl, by decide, by decide, by decide, rfl, rfl⟩

/-- C8 (amended): `executeOrder` rejects with an error — leaving the
continuation (charging, status update) unexecuted, so its result is
the same for every continuation — whenever the order was already
processed, whenever the interval is a non-empty string other than
'month' and 'year', and whenever the amount is missing or zero. -/
theorem executeOrder_rejects (rest : Order → Except String Unit) (order : Order)
    (h : order.processedAt.isSome = true ∨
      (jsTruthyStr order.interval = true ∧ order.interval ≠ some "month" ∧
        order.interval ≠ some "year") ∨
      jsTruthyInt order.totalAmount = false) :
    isErr (executeOrder rest order) = true ∧
    ∀ rest' : Order → Except String Unit,
      executeOrder rest' order = executeOrder rest order := by
  have hmain : ∀ r : Order → Except String Unit,
      executeOrder r order =
        executeOrder (fun _ => Except.ok ()) order ∧
      isErr (executeOrder r order) = true := by
    intro r
    rcases h with hproc | ⟨hint, hm, hy⟩ | hamt
    · constructor <;> simp [executeOrder, hproc, isErr]
    · have hcond : (jsTruthyStr order.interval &&
          !(order.interval == some "month" || order.interval == some "year")) = true := by
        simp only [Bool.and_eq_true, Bool.not_eq_true', Bool.or_eq_false_iff, beq_eq_false_iff_ne,
          ne_eq]
        exact ⟨hint, hm, hy⟩
      have hvp : validatePayment
          { amount := order.totalAmount, interval := order.interval,
            currency := order.currency } =
          Except.error "Interval should be null, month or year." := by
        unfold validatePayment
        exact if_pos hcond
      constructor <;>
        cases hp : order.processedAt <;>
          simp [executeOrder, hvp, isErr, hp]
    · by_cases hcond : (jsTruthyStr order.interval &&
          !(order.interval == some "month" || order.interval == some "year")) = true
      · have hvp : validatePayment
            { amount := order.totalAmount, interval := order.interval,
              currency := order.currency } =
            Except.error "Interval should be null, month or year." := by
          unfold validatePayment
          exact if_pos hcond
        constructor <;>
          cases hp : order.processedAt <;>
            simp [executeOrder, hvp, isErr, hp]
      · have hcond' := eq_false_of_ne_true hcond
        have hvp : validatePayment
            { amount := order.totalAmount, interval := order.interval,
              currency := order.currency } =
            Except.error "payment.amount missing" := by
          unfold validatePayment
          rw [if_neg (by rw [hcond']; simp), if_pos (by rw [hamt]; rfl)]
        constructor <;>
          cases hp : order.processedAt <;>
            simp [executeOrder, hvp, isErr, hp]
  exact ⟨(hmain rest).2, fun rest' => ((hmain rest').1).trans ((hmain rest).1).symm⟩

/-- Witness for C8 (amended): a concrete already-processed order is
rejected. -/
theorem executeOrder_rejects_witness :
    isErr (executeOrder (fun _ => Except.ok ()) orderProcessed) = true :=
  (executeOrder_rejects (fun _ => Except.ok ()) orderProcessed (Or.inl rfl)).1

/-- `applyData` never changes a row's primary key. -/
theorem applyData_id (d : Option TxnData) (t : Transaction) :
    (applyData d t).id = t.id := by
  cases d <;> rfl

/-- Looking a saved row up under its own key returns the saved row
(when a row with that key exists). -/
theorem findById_saveRow_eq (l : List Transaction) (row : Transaction) (i : Nat)
    (hrow : row.id = i) :
    findById (saveRow l row) i = (findById l i).map fun _ => row := by
  subst hrow
  induction l with
  | nil => rfl
  | cons x xs ih =>
    by_cases h : x.id = row.id
    · simp [saveRow, findById, List.find?, h]
    · simp only [saveRow, findById, List.map_cons, List.find?, if_neg h,
        decide_eq_false h] at ih ⊢
      exact ih

/-- Saving a row leaves lookups under any other key unchanged. -/
theorem findById_saveRow_ne (l : List Transaction) (row : Transaction) (i : Nat)
    (h : ¬row.id = i) :
    findById (saveRow l row) i = findById l i := by
  induction l with
  | nil => rfl
  | cons x xs ih =>
    by_cases hx : x.id = row.id
    · have hxi : ¬x.id = i := by rw [hx]; exact h
      simp only [saveRow, findById, List.map_cons, List.find?, if_pos hx,
        decide_eq_false h, decide_eq_false hxi] at ih ⊢
      exact ih
    · by_cases hxi : x.id = i
      · simp only [saveRow, findById, List.map_cons, if_neg hx] at ih ⊢
        rw [List.find?_cons_of_pos _ (by simp [hxi]),
          List.find?_cons_of_pos _ (by simp [hxi])]
      · simp only [saveRow, findById, List.map_cons, List.find?, if_neg hx,
          decide_eq_false hxi] at ih ⊢
        exact ih

/-- A key of a ledger row is always found. -/
theorem findById_isSome_of_mem {l : List Transaction} {u : Transaction} (h : u ∈ l) :
    (findById l u.id).isSome = true := by
  induction l with
  | nil => cases h
  | cons x xs ih =>
    rcases List.mem_cons.mp h with rfl | hx
    · simp [findById, List.find?]
    · by_cases hxx : x.id = u.id
      · simp [findById, List.find?, hxx]
      · simp only [findById, List.find?, decide_eq_false hxx] at ih ⊢
        exact ih hx

/-- In a ledger with pairwise-distinct primary keys, looking up a row's
key returns that row. -/
theorem findById_of_nodup {l : List Transaction} {t : Transaction}
    (hnd : (l.map Transaction.id).Nodup) (h : t ∈ l) :
    findById l t.id = some t := by
  induction l with
  | nil => cases h
  | cons x xs ih =>
    rw [List.map_cons, List.nodup_cons] at hnd
    rcases List.mem_cons.mp h with rfl | hx
    · simp [findById, List.find?]
    · have hne : ¬x.id = t.id := by
        intro he
        exact hnd.1 (he ▸ List.mem_map_of_mem Transaction.id hx)
      simp only [findById, List.find?, decide_eq_false hne] at ih ⊢
      exact ih hnd.2 hx

/-- Lookup of the first row saved by the four consecutive `save` calls
of `associateTransactionRefundId`. -/
theorem findById_save4_pos1 (ledger : List Transaction) (A B C D : Transaction) (i : Nat)
    (hA : A.id = i) (hB : ¬B.id = i) (hC : ¬C.id = i) (hD : ¬D.id = i)
    (hm : (findById ledger i).isSome = true) :
    findById (saveRow (saveRow (saveRow (saveRow ledger A) B) C) D) i = some A := by
  rw [findById_saveRow_ne _ D _ hD, findById_saveRow_ne _ C _ hC,
    findById_saveRow_ne _ B _ hB, findById_saveRow_eq _ A _ hA]
  cases hw : findById ledger i with
  | none => rw [hw] at hm; cases hm
  | some w => rfl

/-- Lookup of the second row saved by the four consecutive `save` calls
of `associateTransactionRefundId`. -/
theorem findById_save4_pos2 (ledger : List Transaction) (A B C D : Transaction) (i : Nat)
    (hA : ¬A.id = i) (hB : B.id = i) (hC : ¬C.id = i) (hD : ¬D.id = i)
    (hm : (findById ledger i).isSome = true) :
    findById (saveRow (saveRow (saveRow (saveRow ledger A) B) C) D) i = some B := by
  rw [findById_saveRow_ne _ D _ hD, findById_saveRow_ne _ C _ hC,
    findById_saveRow_eq _ B _ hB, findById_saveRow_ne _ A _ hA]
  cases hw : findById ledger i with
  | none => rw [hw] at hm; cases hm
  | some w => rfl

/-- Lookup of the third row saved by the four consecutive `save` calls
of `associateTransactionRefundId`. -/
theorem findById_save4_pos3 (ledger : List Transaction) (A B C D : Transaction) (i : Nat)
    (hA : ¬A.id = i) (hB : ¬B.id = i) (hC : C.id = i) (hD : ¬D.id = i)
    (hm : (findById ledger i).isSome = true) :
    findById (saveRow (saveRow (saveRow (saveRow ledger A) B) C) D) i = some C := by
  rw [findById_saveRow_ne _ D _ hD, findById_saveRow_eq _ C _ hC,
    findById_saveRow_ne _ B _ hB, findById_saveRow_ne _ A _ hA]
  cases hw : findById ledger i with
  | none => rw [hw] at hm; cases hm
  | some w => rfl

/-- Lookup of the fourth row saved by the four consecutive `save` calls
of `associateTransactionRefundId`. -/
theorem findById_save4_pos4 (ledger : List Transaction) (A B C D : Transaction) (i : Nat)
    (hA : ¬A.id = i) (hB : ¬B.id = i) (hC : ¬C.id = i) (hD : D.id = i)
    (hm : (findById ledger i).isSome = true) :
    findById (saveRow (saveRow (saveRow (saveRow ledger A) B) C) D) i = some D := by
  rw [findById_saveRow_eq _ D _ hD, findById_saveRow_ne _ C _ hC,
    findById_saveRow_ne _ B _ hB, findById_saveRow_ne _ A _ hA]
  cases hw : findById ledger i with
  | none => rw [hw] at hm; cases hm
  | some w => rfl

/-- Core behaviour of `associateTransactionRefundId` when the two
groups hold exactly the four rows `t1 < t2 < t3 < t4` (by id): it
returns an updated ledger in which the four rows carry the crossed
`RefundTransactionId` links, together with the lodash `find` result
over the four updated rows. -/
theorem associateTransactionRefundId_core (ledger : List Transaction)
    (transaction refund : Transaction) (dataArg : Option TxnData)
    (t1 t2 t3 t4 : Transaction)
    (hrows : ledger.filter (inRefundGroups transaction refund) = [t1, t2, t3, t4])
    (h12 : t1.id < t2.id) (h23 : t2.id < t3.id) (h34 : t3.id < t4.id) :
    ∃ l ret,
      associateTransactionRefundId ledger transaction refund dataArg = some (l, ret) ∧
      findById l t1.id =
        some { applyData dataArg t1 with RefundTransactionId := some t4.id } ∧
      findById l t2.id =
        some { applyData dataArg t2 with RefundTransactionId := some t3.id } ∧
      findById l t3.id = some { t3 with RefundTransactionId := some t2.id } ∧
      findById l t4.id = some { t4 with RefundTransactionId := some t1.id } ∧
      ret = [{ applyData dataArg t1 with RefundTransactionId := some t4.id },
             { applyData dataArg t2 with RefundTransactionId := some t3.id },
             { t3 with RefundTransactionId := some t2.id },
             { t4 with RefundTransactionId := some t1.id }].find?
        fun u => u.id = transaction.id := by
  have hmem1 : t1 ∈ ledger := List.mem_of_mem_filter (by rw [hrows]; simp)
  have hmem2 : t2 ∈ ledger := List.mem_of_mem_filter (by rw [hrows]; simp)
  have hmem3 : t3 ∈ ledger := List.mem_of_mem_filter (by rw [hrows]; simp)
  have hmem4 : t4 ∈ ledger := List.mem_of_mem_filter (by rw [hrows]; simp)
  have hm1 := findById_isSome_of_mem hmem1
  have hm2 := findById_isSome_of_mem hmem2
  have hm3 := findById_isSome_of_mem hmem3
  have hm4 := findById_isSome_of_mem hmem4
  have hne12 : t1.id ≠ t2.id := Nat.ne_of_lt h12
  have hne13 : t1.id ≠ t3.id := Nat.ne_of_lt (h12.trans h23)
  have hne14 : t1.id ≠ t4.id := Nat.ne_of_lt ((h12.trans h23).trans h34)
  have hne23 : t2.id ≠ t3.id := Nat.ne_of_lt h23
  have hne24 : t2.id ≠ t4.id := Nat.ne_of_lt (h23.trans h34)
  have hne34 : t3.id ≠ t4.id := Nat.ne_of_lt h34
  simp only [associateTransactionRefundId, hrows]
  refine ⟨_, _, rfl, ?_, ?_, ?_, ?_, rfl⟩
  · apply findById_save4_pos1
    · exact applyData_id dataArg t1
    · simp only [applyData_id]
      exact Ne.symm hne12
    · exact Ne.symm hne13
    · exact Ne.symm hne14
    · exact hm1
  · apply findById_save4_pos2
    · simp only [applyData_id]
      exact hne12
    · exact applyData_id dataArg t2
    · exact Ne.symm hne23
    · exact Ne.symm hne24
    · exact hm2
  · apply findById_save4_pos3
    · simp only [applyData_id]
      exact hne13
    · simp only [applyData_id]
      exact hne23
    · rfl
    · exact Ne.symm hne34
    · exact hm3
  · apply findById_save4_pos4
    · simp only [applyData_id]
      exact hne14
    · simp only [applyData_id]
      exact hne24
    · exact hne34
    · rfl
    · exact hm4

/-- C5: after `associateTransactionRefundId` runs on a transaction
group and its refund group whose four rows ordered by id are
`t1, t2, t3, t4`, the rows are mutually linked —
`t1.RefundTransactionId = t4.id`, `t4.RefundTransactionId = t1.id`,
`t2.RefundTransactionId = t3.id`, `t3.RefundTransactionId = t2.id` —
and the function returns the updated row whose id equals the input
transaction's id. -/
theorem associateTransactionRefundId_links (ledger : List Transaction)
    (transaction refund : Transaction) (dataArg : Option TxnData)
    (t1 t2 t3 t4 : Transaction)
    (hrows : ledger.filter (inRefundGroups transaction refund) = [t1, t2, t3, t4])
    (h12 : t1.id < t2.id) (h23 : t2.id < t3.id) (h34 : t3.id < t4.id)
    (hmem : transaction.id = t1.id ∨ transaction.id = t2.id ∨
      transaction.id = t3.id ∨ transaction.id = t4.id) :
    ∃ l ret,
      associateTransactionRefundId ledger transaction refund dataArg = some (l, some ret) ∧
      ret.id = transaction.id ∧
      ret.RefundTransactionId.isSome = true ∧
      (∃ u1, findById l t1.id = some u1 ∧ u1.RefundTransactionId = some t4.id) ∧
      (∃ u2, findById l t2.id = some u2 ∧ u2.RefundTransactionId = some t3.id) ∧
      (∃ u3, findById l t3.id = some u3 ∧ u3.RefundTransactionId = some t2.id) ∧
      (∃ u4, findById l t4.id = some u4 ∧ u4.RefundTransactionId = some t1.id) := by
  obtain ⟨l, ret, hassoc, hf1, hf2, hf3, hf4, hret⟩ :=
    associateTransactionRefundId_core ledger transaction refund dataArg t1 t2 t3 t4
      hrows h12 h23 h34
  have hne12 : t1.id ≠ t2.id := Nat.ne_of_lt h12
  have hne13 : t1.id ≠ t3.id := Nat.ne_of_lt (h12.trans h23)
  have hne14 : t1.id ≠ t4.id := Nat.ne_of_lt ((h12.trans h23).trans h34)
  have hne23 : t2.id ≠ t3.id := Nat.ne_of_lt h23
  have hne24 : t2.id ≠ t4.id := Nat.ne_of_lt (h23.trans h34)
  have hne34 : t3.id ≠ t4.id := Nat.ne_of_lt h34
  rcases hmem with h | h | h | h
  · have hfound : ret =
        some { applyData dataArg t1 with RefundTransactionId := some t4.id } := by
      rw [hret, List.find?_cons_of_pos _ (by simp [applyData_id, h])]
    refine ⟨l, { applyData dataArg t1 with RefundTransactionId := some t4.id },
      by rw [hassoc, hfound], by simp [applyData_id, h], rfl,
      ⟨_, hf1, rfl⟩, ⟨_, hf2, rfl⟩, ⟨_, hf3, rfl⟩, ⟨_, hf4, rfl⟩⟩
  · have hfound : ret =
        some { applyData dataArg t2 with RefundTransactionId := some t3.id } := by
      rw [hret, List.find?_cons_of_neg _ (by simp [applyData_id, h]; exact hne12),
        List.find?_cons_of_pos _ (by simp [applyData_id, h])]
    refine ⟨l, { applyData dataArg t2 with RefundTransactionId := some t3.id },
      by rw [hassoc, hfound], by simp [applyData_id, h], rfl,
      ⟨_, hf1, rfl⟩, ⟨_, hf2, rfl⟩, ⟨_, hf3, rfl⟩, ⟨_, hf4, rfl⟩⟩
  · have hfound : ret = some ({ t3 with RefundTransactionId := some t2.id } :
        Transaction) := by
      rw [hret, List.find?_cons_of_neg _ (by simp [applyData_id, h]; exact hne13),
        List.find?_cons_of_neg _ (by simp [applyData_id, h]; exact hne23),
        List.find?_cons_of_pos _ (by simp [h])]
    refine ⟨l, { t3 with RefundTransactionId := some t2.id },
      by rw [hassoc, hfound], by simp [h], rfl,
      ⟨_, hf1, rfl⟩, ⟨_, hf2, rfl⟩, ⟨_, hf3, rfl⟩, ⟨_, hf4, rfl⟩⟩
  · have hfound : ret = some ({ t4 with RefundTransactionId := some t1.id } :
        Transaction) := by
      rw [hret, List.find?_cons_of_neg _ (by simp [applyData_id, h]; exact hne14),
        List.find?_cons_of_neg _ (by simp [applyData_id, h]; exact hne24),
        List.find?_cons_of_neg _ (by simp [h]; exact hne34),
        List.find?_cons_of_pos _ (by simp [h])]
    refine ⟨l, { t4 with RefundTransactionId := some t1.id },
      by rw [hassoc, hfound], by simp [h], rfl,
      ⟨_, hf1, rfl⟩, ⟨_, hf2, rfl⟩, ⟨_, hf3, rfl⟩, ⟨_, hf4, rfl⟩⟩

/-- Witness for C5: the cross-linking evaluated on the concrete
four-row ledger `cexLedger`. -/
theorem associateTransactionRefundId_links_witness :
    ∃ l ret,
      associateTransactionRefundId cexLedger cexDebit1 cexRefund3 none =
        some (l, some ret) ∧
      ret.id = cexDebit1.id ∧
      ret.RefundTransactionId.isSome = true ∧
      (∃ u1, findById l cexDebit1.id = some u1 ∧
        u1.RefundTransactionId = some cexRefund4.id) ∧
      (∃ u2, findById l baseTxn.id = some u2 ∧
        u2.RefundTransactionId = some cexRefund3.id) ∧
      (∃ u3, findById l cexRefund3.id = some u3 ∧
        u3.RefundTransactionId = some baseTxn.id) ∧
      (∃ u4, findById l cexRefund4.id = some u4 ∧
        u4.RefundTransactionId = some cexDebit1.id) :=
  associateTransactionRefundId_links cexLedger cexDebit1 cexRefund3 none
    cexDebit1 baseTxn cexRefund3 cexRefund4
    (by decide) (by decide) (by decide) (by decide) (Or.inl rfl)

/-- C4 counterexample: a single call of `associateTransactionRefundId`
on the concrete four-row ledger `cexLedger` changes four stored
records, so not every operation writes at most one database record. -/
theorem associateTransactionRefundId_multi_write_cex :
    1 < ((associateTransactionRefundId cexLedger cexDebit1 cexRefund3 none).map
      (fun p => changedRecords cexLedger p.1)).getD 0 := by
  decide

/-- C4 (amended): `associateTransactionRefundId` is not a single-record
write — one call updates all four rows (with pairwise-distinct ids) of
the refunded and refund transaction groups. -/
theorem associateTransactionRefundId_writes_four (ledger : List Transaction)
    (transaction refund : Transaction) (dataArg : Option TxnData)
    (t1 t2 t3 t4 : Transaction)
    (hrows : ledger.filter (inRefundGroups transaction refund) = [t1, t2, t3, t4])
    (h12 : t1.id < t2.id) (h23 : t2.id < t3.id) (h34 : t3.id < t4.id)
    (hnd : (ledger.map Transaction.id).Nodup)
    (hr1 : t1.RefundTransactionId = none) (hr2 : t2.RefundTransactionId = none)
    (hr3 : t3.RefundTransactionId = none) (hr4 : t4.RefundTransactionId = none) :
    ∃ p, associateTransactionRefundId ledger transaction refund dataArg = some p ∧
      findById p.1 t1.id ≠ findById ledger t1.id ∧
      findById p.1 t2.id ≠ findById ledger t2.id ∧
      findById p.1 t3.id ≠ findById ledger t3.id ∧
      findById p.1 t4.id ≠ findById ledger t4.id ∧
      t1.id ≠ t2.id ∧ t1.id ≠ t3.id ∧ t1.id ≠ t4.id ∧
      t2.id ≠ t3.id ∧ t2.id ≠ t4.id ∧ t3.id ≠ t4.id := by
  obtain ⟨l, ret, hassoc, hf1, hf2, hf3, hf4, -⟩ :=
    associateTransactionRefundId_core ledger transaction refund dataArg t1 t2 t3 t4
      hrows h12 h23 h34
  have hmem1 : t1 ∈ ledger := List.mem_of_mem_filter (by rw [hrows]; simp)
  have hmem2 : t2 ∈ ledger := List.mem_of_mem_filter (by rw [hrows]; simp)
  have hmem3 : t3 ∈ ledger := List.mem_of_mem_filter (by rw [hrows]; simp)
  have hmem4 : t4 ∈ ledger := List.mem_of_mem_filter (by rw [hrows]; simp)
  have hl1 := findById_of_nodup hnd hmem1
  have hl2 := findById_of_nodup hnd hmem2
  have hl3 := findById_of_nodup hnd hmem3
  have hl4 := findById_of_nodup hnd hmem4
  refine ⟨(l, ret), hassoc, ?_, ?_, ?_, ?_,
    Nat.ne_of_lt h12, Nat.ne_of_lt (h12.trans h23),
    Nat.ne_of_lt ((h12.trans h23).trans h34), Nat.ne_of_lt h23,
    Nat.ne_of_lt (h23.trans h34), Nat.ne_of_lt h34⟩
  · intro hcontr
    rw [hf1, hl1] at hcontr
    have h' := congrArg Transaction.RefundTransactionId (Option.some.inj hcontr)
    rw [hr1] at h'
    simp at h'
  · intro hcontr
    rw [hf2, hl2] at hcontr
    have h' := congrArg Transaction.RefundTransactionId (Option.some.inj hcontr)
    rw [hr2] at h'
    simp at h'
  · intro hcontr
    rw [hf3, hl3] at hcontr
    have h' := congrArg Transaction.RefundTransactionId (Option.some.inj hcontr)
    rw [hr3] at h'
    simp at h'
  · intro hcontr
    rw [hf4, hl4] at hcontr
    have h' := congrArg Transaction.RefundTransactionId (Option.some.inj hcontr)
    rw [hr4] at h'
    simp at h'

/-- Witness for C4 (amended): four distinct records change on the
concrete ledger `cexLedger`. -/
theorem associateTransactionRefundId_writes_four_witness :
    ∃ p, associateTransactionRefundId cexLedger cexDebit1 cexRefund3 none = some p ∧
      findById p.1 cexDebit1.id ≠ findById cexLedger cexDebit1.id ∧
      findById p.1 baseTxn.id ≠ findById cexLedger baseTxn.id ∧
      findById p.1 cexRefund3.id ≠ findById cexLedger cexRefund3.id ∧
      findById p.1 cexRefund4.id ≠ findById cexLedger cexRefund4.id ∧
      cexDebit1.id ≠ baseTxn.id ∧ cexDebit1.id ≠ cexRefund3.id ∧
      cexDebit1.id ≠ cexRefund4.id ∧ baseTxn.id ≠ cexRefund3.id ∧
      baseTxn.id ≠ cexRefund4.id ∧ cexRefund3.id ≠ cexRefund4.id :=
  associateTransactionRefundId_writes_four cexLedger cexDebit1 cexRefund3 none
    cexDebit1 baseTxn cexRefund3 cexRefund4
    (by decide) (by decide) (by decide) (by decide) (by decide)
    rfl rfl rfl rfl

end OC
